import Mathlib

/-!
Verification development for the friendly-mcp-tools capability gateway.

The definitions below are a shallow embedding of the program's core:
the feature-flag-driven capability registry (src/tools.py, src/server.py),
the subprocess executor and CLI command builders
(src/git_cli_tools/git_cli_services.py), the query dispatcher and query
language detector (src/fabric_rti_tools/fabric_rti_services.py), and the
synthetic data generators (src/data_tools/data_services.py).

External effects are made explicit: the operating system's behaviour for a
subprocess is an explicit RunOutcome value, and the analytical backend's
behaviour for a query is an explicit BackendResponse value; the embedded
functions map those inputs to the exact result records the source builds.
-/

/-! ## Capability registry (src/config.py, src/tools.py, src/server.py) -/

/-- The four service feature flags of src/config.py, read once at startup. -/
structure FeatureFlags where
  ENABLE_DATA_TOOLS : Bool
  ENABLE_FABRIC_RTI_TOOLS : Bool
  ENABLE_GIT_CLI_TOOLS : Bool
  ENABLE_INSTRUCTION_TOOLS : Bool
deriving DecidableEq, Repr

/-- The tool functions defined in the repository's service modules.
`fabric_rti_run_query_and_get_results` is defined in
src/fabric_rti_tools/fabric_rti_services.py like the others. -/
inductive ToolName where
  | generate_columnar_data
  | generate_row_data
  | get_instructions_convert_psql_to_rtitsql
  | fabric_rti_run_query_and_count_records
  | fabric_rti_run_query_and_get_results
  | fabric_rti_get_materialized_view_schema
  | git_issue_list
  | git_issue_view
  | git_pr_list
  | git_pr_view
  | git_pr_diff
deriving DecidableEq, Repr

/-- The capability groups of the spec, one per feature flag. -/
inductive CapabilityGroup where
  | data
  | instructions
  | query_backend
  | version_control
deriving DecidableEq, Repr

/-- Which capability group each tool function belongs to (the service module
that defines it). -/
def toolGroup : ToolName → CapabilityGroup
  | .generate_columnar_data => .data
  | .generate_row_data => .data
  | .get_instructions_convert_psql_to_rtitsql => .instructions
  | .fabric_rti_run_query_and_count_records => .query_backend
  | .fabric_rti_run_query_and_get_results => .query_backend
  | .fabric_rti_get_materialized_view_schema => .query_backend
  | .git_issue_list => .version_control
  | .git_issue_view => .version_control
  | .git_pr_list => .version_control
  | .git_pr_view => .version_control
  | .git_pr_diff => .version_control

/-- The flag backing a capability group (src/config.py). -/
def groupFlag (flags : FeatureFlags) : CapabilityGroup → Bool
  | .data => flags.ENABLE_DATA_TOOLS
  | .instructions => flags.ENABLE_INSTRUCTION_TOOLS
  | .query_backend => flags.ENABLE_FABRIC_RTI_TOOLS
  | .version_control => flags.ENABLE_GIT_CLI_TOOLS

/-- register_tools of src/tools.py: the ordered sequence of mcp.add_tool
calls, one group block per enabled flag, in source order. -/
def register_tools (flags : FeatureFlags) : List ToolName :=
  (if flags.ENABLE_DATA_TOOLS then
    [ToolName.generate_columnar_data, ToolName.generate_row_data]
   else [])
  ++ (if flags.ENABLE_INSTRUCTION_TOOLS then
    [ToolName.get_instructions_convert_psql_to_rtitsql]
   else [])
  ++ (if flags.ENABLE_FABRIC_RTI_TOOLS then
    [ToolName.fabric_rti_run_query_and_count_records,
     ToolName.fabric_rti_get_materialized_view_schema]
   else [])
  ++ (if flags.ENABLE_GIT_CLI_TOOLS then
    [ToolName.git_issue_list, ToolName.git_issue_view, ToolName.git_pr_list,
     ToolName.git_pr_view, ToolName.git_pr_diff]
   else [])

/-- Observable startup events of src/server.py's main block. -/
inductive StartupEvent where
  | warmup
  | registered (t : ToolName)
  | serve
deriving DecidableEq, Repr

/-- initialize_tools of src/tools.py: run_warmup_query is called exactly when
ENABLE_FABRIC_RTI_TOOLS is set. -/
def initialize_tools (flags : FeatureFlags) : List StartupEvent :=
  if flags.ENABLE_FABRIC_RTI_TOOLS then [StartupEvent.warmup] else []

/-- src/server.py main block: initialize_tools, then register_tools, then
server.run. -/
def server_main (flags : FeatureFlags) : List StartupEvent :=
  initialize_tools flags
    ++ (register_tools flags).map StartupEvent.registered
    ++ [StartupEvent.serve]

/-! ## Process executor (src/git_cli_tools/git_cli_services.py) -/

/-- What the operating system does with one subprocess.run call: the child
completes with an exit code and captured streams, the 30 second timeout
expires, or launching raises some other exception with a message. -/
inductive RunOutcome where
  | completed (returncode : Int) (stdout stderr : String)
  | timed_out
  | failed (message : String)
deriving DecidableEq, Repr

/-- The result dictionary _run_command builds; field names follow the
source's dictionary keys. -/
structure InvocationResult where
  success : Bool
  output : String
  error : String
  return_code : Int
deriving DecidableEq, Repr

/-- _run_command of src/git_cli_tools/git_cli_services.py: completion maps
exit code and streams into the envelope, TimeoutExpired and any other
exception are caught and mapped to failure envelopes. -/
def _run_command (command : List String) (cwd : String)
    (outcome : RunOutcome) : InvocationResult :=
  match command, cwd, outcome with
  | _, _, .completed rc out err =>
    ⟨rc == 0, out, err, rc⟩
  | _, _, .timed_out =>
    ⟨false, "", "Command timed out after 30 seconds", -1⟩
  | _, _, .failed msg =>
    ⟨false, "", msg, -1⟩

/-! ## Decimal rendering

Python renders integers in decimal inside f-strings and str(); natToString
and intToString below are kernel-computable decimal printers. -/

/-- ASCII digit character for a decimal digit. -/
def digitCharOf : Nat → Char
  | 0 => '0'
  | 1 => '1'
  | 2 => '2'
  | 3 => '3'
  | 4 => '4'
  | 5 => '5'
  | 6 => '6'
  | 7 => '7'
  | 8 => '8'
  | 9 => '9'
  | _ => '*'

/-- Little-endian decimal digits, with explicit fuel for structural
recursion; fuel at least n yields all digits of n. -/
def natDigitsRevAux : Nat → Nat → List Nat
  | 0, _ => []
  | fuel + 1, n => if n = 0 then [] else n % 10 :: natDigitsRevAux fuel (n / 10)

/-- Little-endian decimal digits of n, with [0] for zero. -/
def natDigitsRev (n : Nat) : List Nat :=
  if n = 0 then [0] else natDigitsRevAux n n

/-- Decimal rendering of a natural number, as Python's str produces it. -/
def natToString (n : Nat) : String :=
  (((natDigitsRev n).map digitCharOf).reverse).asString

/-- Decimal rendering of an integer, as Python's str produces it. -/
def intToString (i : Int) : String :=
  if i < 0 then "-" ++ natToString i.natAbs else natToString i.natAbs

/-- Value of a little-endian decimal digit list. -/
def ofDigitsRev : List Nat → Nat
  | [] => 0
  | d :: ds => d + 10 * ofDigitsRev ds

/-! ## CLI command builders (src/git_cli_tools/git_cli_services.py) -/

/-- Python truthiness guard for an Optional[str] flag value:
`if v: command.extend([flag, v])`. None and the empty string emit nothing. -/
def optFlag (flag : String) (v : Option String) : List String :=
  match v with
  | some s => if s.isEmpty then [] else [flag, s]
  | none => []

/-- `if json_fields: command.extend(["--json", ",".join(json_fields)])`. -/
def optJsonFlag (v : Option (List String)) : List String :=
  match v with
  | some fs => if fs.isEmpty then [] else ["--json", String.intercalate "," fs]
  | none => []

/-- `if label: for lbl in label: command.extend(["--label", lbl])`. -/
def labelFlags (v : Option (List String)) : List String :=
  match v with
  | some ls => if ls.isEmpty then [] else ls.flatMap (fun l => ["--label", l])
  | none => []

/-- The parameters of git_issue_list, in source order. -/
structure GitIssueListArgs where
  repo_path : String
  assignee : Option String
  author : Option String
  jq : Option String
  json_fields : Option (List String)
  label : Option (List String)
  limit : Int
  mention : Option String
  milestone : Option String
  search : Option String
  state : String
deriving DecidableEq, Repr

/-- The argument vector git_issue_list builds, flag blocks in source order;
limit and state are omitted when equal to their defaults 30 and "open". -/
def git_issue_list_command (p : GitIssueListArgs) : List String :=
  ["gh", "issue", "list"]
  ++ optFlag "--assignee" p.assignee
  ++ optFlag "--author" p.author
  ++ optFlag "--jq" p.jq
  ++ optJsonFlag p.json_fields
  ++ labelFlags p.label
  ++ (if p.limit != 30 then ["--limit", intToString p.limit] else [])
  ++ optFlag "--mention" p.mention
  ++ optFlag "--milestone" p.milestone
  ++ optFlag "--search" p.search
  ++ (if p.state != "open" then ["--state", p.state] else [])

/-- git_issue_list: build the command, then hand it to _run_command with the
repo path as working directory. -/
def git_issue_list (p : GitIssueListArgs) (outcome : RunOutcome) :
    InvocationResult :=
  _run_command (git_issue_list_command p) p.repo_path outcome

/-- The parameters of git_pr_diff, in source order. -/
structure GitPrDiffArgs where
  pr_identifier : Option String
  repo_path : String
  color : String
  name_only : Bool
  patch : Bool
deriving DecidableEq, Repr

/-- The argument vector git_pr_diff builds; color is omitted when equal to
its default "auto". -/
def git_pr_diff_command (p : GitPrDiffArgs) : List String :=
  ["gh", "pr", "diff"]
  ++ (match p.pr_identifier with
      | some s => if s.isEmpty then [] else [s]
      | none => [])
  ++ (if p.color != "auto" then ["--color", p.color] else [])
  ++ (if p.name_only then ["--name-only"] else [])
  ++ (if p.patch then ["--patch"] else [])

/-- The parameters of git_issue_view, in source order. -/
structure GitIssueViewArgs where
  issue_identifier : String
  repo_path : String
  comments : Bool
  jq : Option String
  json_fields : Option (List String)
deriving DecidableEq, Repr

/-- What a CLI tool body decides to do: return an envelope immediately
without running anything, or run a command in a working directory. -/
inductive ToolAction where
  | early_return (result : InvocationResult)
  | run (command : List String) (cwd : String)
deriving DecidableEq, Repr

/-- git_issue_view's control flow: the `if not issue_identifier` guard
returns an error envelope without building or running any command; otherwise
the command is built flag block by flag block in source order. -/
def git_issue_view_action (p : GitIssueViewArgs) : ToolAction :=
  if p.issue_identifier.isEmpty then
    ToolAction.early_return
      ⟨false, "", "issue_identifier is required (e.g., issue number or URL)", -1⟩
  else
    ToolAction.run
      (["gh", "issue", "view", p.issue_identifier]
        ++ (if p.comments then ["--comments"] else [])
        ++ optFlag "--jq" p.jq
        ++ optJsonFlag p.json_fields)
      p.repo_path

/-- git_issue_view: perform the chosen action, delegating to _run_command
when a command is run. -/
def git_issue_view (p : GitIssueViewArgs) (outcome : RunOutcome) :
    InvocationResult :=
  match git_issue_view_action p with
  | .early_return r => r
  | .run cmd cwd => _run_command cmd cwd outcome

/-! ## Query language detector (src/fabric_rti_tools/fabric_rti_services.py)

Python string primitives str.lstrip, str.strip and str.splitlines are
embedded on lists of characters, over the whitespace and line-boundary
character sets Python documents for them. -/

/-- Characters Python's str.strip and str.lstrip remove. -/
def pyIsSpace (c : Char) : Bool :=
  c = ' ' || c = '\t' || c = '\n' || c = '\r' || c = '\x0b' || c = '\x0c' ||
  c = '\x1c' || c = '\x1d' || c = '\x1e' || c = '\x1f' || c = '\x85' ||
  c = '\xa0' || (0x2000 ≤ c.toNat && c.toNat ≤ 0x200a) ||
  c.toNat = 0x1680 || c.toNat = 0x2028 || c.toNat = 0x2029 ||
  c.toNat = 0x202f || c.toNat = 0x205f || c.toNat = 0x3000

/-- Line boundaries Python's str.splitlines splits on (carriage return
followed by line feed counts as a single boundary, handled separately). -/
def isLineBoundary (c : Char) : Bool :=
  c = '\n' || c = '\r' || c = '\x0b' || c = '\x0c' || c = '\x1c' ||
  c = '\x1d' || c = '\x1e' || c = '\x85' ||
  c.toNat = 0x2028 || c.toNat = 0x2029

/-- str.lstrip(): drop leading whitespace characters. -/
def pyLstrip : List Char → List Char
  | [] => []
  | c :: cs => if pyIsSpace c then pyLstrip cs else c :: cs

/-- str.rstrip(): drop trailing whitespace characters. -/
def pyRstrip (l : List Char) : List Char :=
  (pyLstrip l.reverse).reverse

/-- str.strip(): drop whitespace at both ends. -/
def pyStrip (l : List Char) : List Char :=
  pyRstrip (pyLstrip l)

/-- str.splitlines(): split at line boundaries, treating a carriage return
immediately followed by a line feed as one boundary; a trailing boundary
does not produce an extra empty line, and the empty string has no lines. -/
def pySplitlines : List Char → List (List Char)
  | [] => []
  | [c] => if isLineBoundary c then [[]] else [[c]]
  | c :: d :: rest =>
    if c = '\r' ∧ d = '\n' then [] :: pySplitlines rest
    else if isLineBoundary c then [] :: pySplitlines (d :: rest)
    else
      match pySplitlines (d :: rest) with
      | [] => [[c]]
      | l :: ls => (c :: l) :: ls

/-- _detect_query_language of src/fabric_rti_tools/fabric_rti_services.py:
lines = query.lstrip().splitlines(); "sql" when lines is nonempty and
lines[0].strip() == "--", else "kql". -/
def _detect_query_language (query : String) : String :=
  match (pySplitlines (pyLstrip query.data)).head? with
  | some line0 => if pyStrip line0 = ['-', '-'] then "sql" else "kql"
  | none => "kql"

/-- First non-blank line, read off the spec's words: among the lines of the
query text, the first whose strip is nonempty. -/
def firstNonBlankLine (query : String) : Option (List Char) :=
  (pySplitlines query.data).find? (fun l => !(pyStrip l).isEmpty)

/-- Modelled from the spec's words for the Language Detector contract:
classify as dialect "sql" exactly when the first non-blank line of the query
text, after trimming, equals the two-character marker; otherwise "kql". -/
def detectDialectSpec (query : String) : String :=
  match firstNonBlankLine query with
  | some l => if pyStrip l = ['-', '-'] then "sql" else "kql"
  | none => "kql"

/-! ## Query dispatcher (src/fabric_rti_tools/fabric_rti_services.py) -/

/-- One backend row: a mapping from column name to value, in column order. -/
abbrev KustoRow := List (String × String)

/-- What the backend connection does with one client.execute call: either a
primary result set (its data rows) or a raised fault. -/
inductive BackendResponse where
  | ok (rows : List KustoRow)
  | fault (message : String)
deriving DecidableEq, Repr

/-- Effective query language: `query_language or _detect_query_language(query)`
(None and the empty string are both falsy in Python). -/
def effectiveQueryLanguage (query : String) (query_language : Option String) :
    String :=
  match query_language with
  | some l => if l.isEmpty then _detect_query_language query else l
  | none => _detect_query_language query

/-- _run_query: submit the query and return (rows, elapsed_seconds); a
backend fault is not caught anywhere in the function and propagates. -/
def _run_query (query : String) (query_language : Option String)
    (resp : BackendResponse) (elapsed_seconds : Rat) :
    Except String (List KustoRow × Rat) :=
  match effectiveQueryLanguage query query_language, resp with
  | _, .fault msg => Except.error msg
  | _, .ok rows => Except.ok (rows, elapsed_seconds)

/-- Result dictionary of fabric_rti_run_query_and_count_records. -/
structure CountRecordsResult where
  record_count : Nat
  elapsed_seconds : Rat
deriving DecidableEq, Repr

/-- Result dictionary of fabric_rti_run_query_and_get_results. -/
structure QueryResultsResult where
  results : List KustoRow
  elapsed_seconds : Rat
deriving DecidableEq, Repr

/-- `len(data) if data and isinstance(data, list) else 0`: data is always a
list here, and an empty list is falsy, so this is the length with an
explicit zero branch for the empty list. -/
def pyRecordCount (data : List KustoRow) : Nat :=
  if !data.isEmpty then data.length else 0

/-- fabric_rti_run_query_and_count_records: run the query, count records;
a fault from _run_query propagates uncaught. -/
def fabric_rti_run_query_and_count_records (query : String)
    (query_language : Option String) (resp : BackendResponse)
    (elapsed : Rat) : Except String CountRecordsResult :=
  match _run_query query query_language resp elapsed with
  | Except.error e => Except.error e
  | Except.ok (data, elapsed_seconds) =>
    Except.ok ⟨pyRecordCount data, elapsed_seconds⟩

/-- fabric_rti_run_query_and_get_results: run the query, return the row
sequence; a fault from _run_query propagates uncaught. -/
def fabric_rti_run_query_and_get_results (query : String)
    (query_language : Option String) (resp : BackendResponse)
    (elapsed : Rat) : Except String QueryResultsResult :=
  match _run_query query query_language resp elapsed with
  | Except.error e => Except.error e
  | Except.ok (data, elapsed_seconds) =>
    Except.ok ⟨data, elapsed_seconds⟩

/-! ## Data generators (src/data_tools/data_services.py) -/

/-- The fixed filler string both generators embed in every cell. -/
def random_50_char_string : String :=
  "ddgdgdgdfgdfgdfgdfgdfgdfgdfgdfgdfgdfgdfgdfg"

/-- The f-string key col_{i}. -/
def colName (i : Nat) : String :=
  "col_" ++ natToString i

/-- The f-string cell value data_{i}_{j}_{filler}. -/
def cellValue (i j : Nat) : String :=
  "data_" ++ natToString i ++ "_" ++ natToString j ++ "_"
    ++ random_50_char_string

/-- generate_columnar_data: insertion-ordered dictionary from column name to
the list of that column's cells, column-major. -/
def generate_columnar_data (rows cols : Nat) : List (String × List String) :=
  (List.range cols).map
    (fun i => (colName i, (List.range rows).map (fun j => cellValue i j)))

/-- generate_row_data: list of insertion-ordered row dictionaries,
row-major. -/
def generate_row_data (rows cols : Nat) : List (List (String × String)) :=
  (List.range rows).map
    (fun j => (List.range cols).map (fun i => (colName i, cellValue i j)))

/-- Cell access through the columnar orientation: look the column up by its
key, then index into it by row position. -/
def columnarCell (rows cols i j : Nat) : Option String :=
  (List.lookup (colName i) (generate_columnar_data rows cols)).bind
    (fun col => col[j]?)

/-- Cell access through the row orientation: index the row by position, then
look the cell up by column key. -/
def rowCell (rows cols i j : Nat) : Option String :=
  ((generate_row_data rows cols)[j]?).bind
    (fun row => List.lookup (colName i) row)

/-! ## Helper lemmas -/

theorem natDigitsRevAux_lt_ten (fuel n : Nat) :
    ∀ d ∈ natDigitsRevAux fuel n, d < 10 := by
  induction fuel generalizing n with
  | zero => intro d hd; simp [natDigitsRevAux] at hd
  | succ fuel ih =>
    intro d hd
    by_cases h : n = 0
    · simp [natDigitsRevAux, h] at hd
    · simp only [natDigitsRevAux, if_neg h, List.mem_cons] at hd
      rcases hd with rfl | hd
      · exact Nat.mod_lt _ (by norm_num)
      · exact ih _ d hd

theorem natDigitsRev_lt_ten (n : Nat) : ∀ d ∈ natDigitsRev n, d < 10 := by
  intro d hd
  by_cases h : n = 0
  · simp [natDigitsRev, h] at hd
    omega
  · rw [natDigitsRev, if_neg h] at hd
    exact natDigitsRevAux_lt_ten n n d hd

theorem ofDigitsRev_natDigitsRevAux (fuel : Nat) :
    ∀ n, n ≤ fuel → ofDigitsRev (natDigitsRevAux fuel n) = n := by
  induction fuel with
  | zero => intro n hn; interval_cases n; simp [natDigitsRevAux, ofDigitsRev]
  | succ fuel ih =>
    intro n hn
    by_cases h : n = 0
    · simp [natDigitsRevAux, h, ofDigitsRev]
    · rw [natDigitsRevAux, if_neg h, ofDigitsRev, ih (n / 10) ?_, Nat.mod_add_div]
      have : n / 10 < n := Nat.div_lt_self (Nat.pos_of_ne_zero h) (by norm_num)
      omega

theorem ofDigitsRev_natDigitsRev (n : Nat) :
    ofDigitsRev (natDigitsRev n) = n := by
  by_cases h : n = 0
  · simp [natDigitsRev, h, ofDigitsRev]
  · rw [natDigitsRev, if_neg h]
    exact ofDigitsRev_natDigitsRevAux n n le_rfl

theorem digitCharOf_inj_lt :
    ∀ d < 10, ∀ e < 10, digitCharOf d = digitCharOf e → d = e := by decide

theorem map_digitCharOf_inj :
    ∀ l₁ l₂ : List Nat, (∀ d ∈ l₁, d < 10) → (∀ d ∈ l₂, d < 10) →
      l₁.map digitCharOf = l₂.map digitCharOf → l₁ = l₂ := by
  intro l₁
  induction l₁ with
  | nil =>
    intro l₂ _ _ h
    cases l₂ with
    | nil => rfl
    | cons x xs => simp at h
  | cons x xs ih =>
    intro l₂ h₁ h₂ h
    cases l₂ with
    | nil => simp at h
    | cons y ys =>
      simp only [List.map_cons, List.cons.injEq] at h
      have hx := digitCharOf_inj_lt x (h₁ x (by simp)) y (h₂ y (by simp)) h.1
      have hxs := ih ys (fun d hd => h₁ d (by simp [hd]))
        (fun d hd => h₂ d (by simp [hd])) h.2
      rw [hx, hxs]

theorem natToString_injective (a b : Nat) (h : natToString a = natToString b) :
    a = b := by
  have hdata := congrArg String.data h
  simp only [natToString, List.asString] at hdata
  have hrev := List.reverse_injective hdata
  have hdig := map_digitCharOf_inj _ _ (natDigitsRev_lt_ten a)
    (natDigitsRev_lt_ten b) hrev
  have := congrArg ofDigitsRev hdig
  rwa [ofDigitsRev_natDigitsRev, ofDigitsRev_natDigitsRev] at this

theorem natToString_all_digits (n : Nat) :
    ∀ c ∈ (natToString n).data, c ≠ '-' := by
  intro c hc
  simp only [natToString, List.asString, List.mem_reverse, List.mem_map] at hc
  obtain ⟨d, hd, rfl⟩ := hc
  have hlt := natDigitsRev_lt_ten n d hd
  revert hlt
  have : ∀ d < 10, digitCharOf d ≠ '-' := by decide
  exact this d

theorem intToString_ne_dashdash (i : Int) (t : String) :
    intToString i ≠ "--" ++ t := by
  intro h
  have hdata := congrArg String.data h
  rw [String.data_append] at hdata
  by_cases hneg : i < 0
  · rw [intToString, if_pos hneg] at hdata
    rw [String.data_append] at hdata
    have : (natToString i.natAbs).data = '-' :: t.data := by
      simpa using hdata
    have hmem : '-' ∈ (natToString i.natAbs).data := by
      rw [this]; simp
    exact natToString_all_digits i.natAbs '-' hmem rfl
  · rw [intToString, if_neg hneg] at hdata
    have hmem : '-' ∈ (natToString i.natAbs).data := by
      rw [hdata]; simp
    exact natToString_all_digits i.natAbs '-' hmem rfl


/-! ## Claim theorems: capability registry -/

/-- C1 counterexample: with only the query-backend flag enabled, the
run-and-get-results tool named by the claim is not among the registered
tools — register_tools adds only the count-records and view-schema tools
for the fabric group. -/
theorem c1_three_query_tools_counterexample :
    ToolName.fabric_rti_run_query_and_get_results ∉
      register_tools ⟨false, true, false, false⟩ := by decide

/-- C1 (amended): when only the query-backend flag is true, register_tools
registers exactly the two query tools run-and-count and get-view-schema
(run-and-get-results is defined but never registered), the warmup hook runs
exactly once and before serving; when the query-backend flag is false the
warmup hook is never invoked. -/
theorem c1_registry_two_query_tools_warmup_once (flags : FeatureFlags) :
    register_tools ⟨false, true, false, false⟩ =
      [ToolName.fabric_rti_run_query_and_count_records,
       ToolName.fabric_rti_get_materialized_view_schema] ∧
    server_main ⟨false, true, false, false⟩ =
      [StartupEvent.warmup,
       StartupEvent.registered ToolName.fabric_rti_run_query_and_count_records,
       StartupEvent.registered ToolName.fabric_rti_get_materialized_view_schema,
       StartupEvent.serve] ∧
    (server_main flags).count StartupEvent.warmup =
      (if flags.ENABLE_FABRIC_RTI_TOOLS then 1 else 0) ∧
    (flags.ENABLE_FABRIC_RTI_TOOLS = false →
      StartupEvent.warmup ∉ server_main flags) := by
  obtain ⟨a, b, c, d⟩ := flags
  cases a <;> cases b <;> cases c <;> cases d <;> decide

/-- C1 witness: with all flags false the warmup event never occurs. -/
theorem c1_registry_two_query_tools_warmup_once_witness :
    StartupEvent.warmup ∉ server_main ⟨false, false, false, false⟩ :=
  (c1_registry_two_query_tools_warmup_once ⟨false, false, false, false⟩).2.2.2 rfl

/-- C2: for every flag configuration, every registered tool has its
capability group's flag set, and with all four flags false the registered
tool list is empty. -/
theorem c2_no_tool_without_flag (flags : FeatureFlags) :
    (∀ t ∈ register_tools flags, groupFlag flags (toolGroup t) = true) ∧
    register_tools ⟨false, false, false, false⟩ = [] := by
  obtain ⟨a, b, c, d⟩ := flags
  cases a <;> cases b <;> cases c <;> cases d <;> exact ⟨by decide, by decide⟩

/-- C2 witness: a registered tool under the all-on configuration has its
backing flag set. -/
theorem c2_no_tool_without_flag_witness :
    groupFlag ⟨true, true, true, true⟩ (toolGroup ToolName.git_pr_diff) = true :=
  (c2_no_tool_without_flag ⟨true, true, true, true⟩).1 ToolName.git_pr_diff
    (by decide)

/-! ## Claim theorems: process executor -/

/-- C3: for every argument vector and working directory, timeout expiry
returns exactly the documented envelope and any other launch failure is
returned in the same envelope shape with the failure description in the
error field and code -1; the executor is a total function, so no raw fault
ever escapes it. -/
theorem c3_executor_failure_envelopes (command : List String)
    (cwd message : String) :
    _run_command command cwd RunOutcome.timed_out =
      ⟨false, "", "Command timed out after 30 seconds", -1⟩ ∧
    _run_command command cwd (RunOutcome.failed message) =
      ⟨false, "", message, -1⟩ ∧
    (_run_command command cwd (RunOutcome.failed message)).success = false ∧
    (_run_command command cwd (RunOutcome.failed message)).return_code = -1 :=
  ⟨rfl, rfl, rfl, rfl⟩

/-- C4: for a CLI-backed tool whose child runs to completion, success is
true exactly when the exit code is zero, stdout lands in output and stderr
in error; exit code 0 with stdout "ok\n" yields the success envelope. -/
theorem c4_cli_success_iff_exit_zero (p : GitIssueListArgs) (rc : Int)
    (out err : String) :
    git_issue_list p (RunOutcome.completed rc out err) =
      ⟨rc == 0, out, err, rc⟩ ∧
    ((git_issue_list p (RunOutcome.completed rc out err)).success = true ↔
      rc = 0) ∧
    git_issue_list ⟨".", none, none, none, none, none, 30, none, none, none,
        "open"⟩ (RunOutcome.completed 0 "ok\n" "") = ⟨true, "ok\n", "", 0⟩ := by
  refine ⟨rfl, ?_, by decide⟩
  show ((rc == 0 : Bool) = true ↔ rc = 0)
  exact beq_iff_eq

/-! ## Claim theorems: query dispatcher -/

/-- C5: a backend fault propagates out of both query tools as the fault
itself, never as a success-shaped value, while a query that runs and
returns zero rows yields a normal result (empty results, count zero) that
is distinguishable from a failed query. -/
theorem c5_query_faults_propagate (query : String)
    (query_language : Option String) (message : String) (elapsed : Rat) :
    fabric_rti_run_query_and_count_records query query_language
      (BackendResponse.fault message) elapsed = Except.error message ∧
    fabric_rti_run_query_and_get_results query query_language
      (BackendResponse.fault message) elapsed = Except.error message ∧
    fabric_rti_run_query_and_get_results query query_language
      (BackendResponse.ok []) elapsed = Except.ok ⟨[], elapsed⟩ ∧
    fabric_rti_run_query_and_count_records query query_language
      (BackendResponse.ok []) elapsed = Except.ok ⟨0, elapsed⟩ ∧
    (Except.error message ≠
      (Except.ok ⟨[], elapsed⟩ : Except String QueryResultsResult)) :=
  ⟨rfl, rfl, rfl, rfl, fun h => Except.noConfusion h⟩

/-- C10: for the same backend result, the record_count reported by the
count tool equals the length of the results list returned by the
get-results tool, and it is 0 when that list is empty. -/
theorem c10_count_equals_results_length (query : String)
    (query_language : Option String) (rows : List KustoRow) (elapsed : Rat)
    (c : CountRecordsResult) (r : QueryResultsResult)
    (hc : fabric_rti_run_query_and_count_records query query_language
      (BackendResponse.ok rows) elapsed = Except.ok c)
    (hr : fabric_rti_run_query_and_get_results query query_language
      (BackendResponse.ok rows) elapsed = Except.ok r) :
    c.record_count = r.results.length ∧
    (r.results = [] → c.record_count = 0) := by
  have hcount : pyRecordCount rows = rows.length := by
    cases rows <;> simp [pyRecordCount]
  simp only [fabric_rti_run_query_and_count_records,
    fabric_rti_run_query_and_get_results, _run_query,
    Except.ok.injEq] at hc hr
  subst hc
  subst hr
  constructor
  · exact hcount
  · intro hnil
    have hrows : rows = [] := hnil
    subst hrows
    rfl

/-- C10 witness: at the empty backend result, both tools agree and report
zero records. -/
theorem c10_count_equals_results_length_witness :
    (⟨0, 0⟩ : CountRecordsResult).record_count =
      (⟨[], 0⟩ : QueryResultsResult).results.length :=
  (c10_count_equals_results_length "q" none [] 0 ⟨0, 0⟩ ⟨[], 0⟩ rfl rfl).1


/-! ## Claim theorems: command builder -/

theorem issue_list_cmd_eval (limit : Int) (state : String) :
    git_issue_list_command
      ⟨".", none, none, none, none, none, limit, none, none, none, state⟩ =
    ["gh", "issue", "list"]
      ++ (if limit != 30 then ["--limit", intToString limit] else [])
      ++ (if state != "open" then ["--state", state] else []) := by
  simp [git_issue_list_command, optFlag, optJsonFlag, labelFlags]

theorem pr_diff_cmd_eval (color : String) :
    git_pr_diff_command ⟨none, ".", color, false, false⟩ =
    ["gh", "pr", "diff"]
      ++ (if color != "auto" then ["--color", color] else []) := by
  simp [git_pr_diff_command]

/-- C7: a parameter equal to its documented default (limit 30, state "open",
color "auto") contributes no flag token to the built argument vector, and a
non-default value appends the corresponding flag token followed by the
value. -/
theorem c7_default_params_omit_flags (limit : Int) (state color : String)
    (hstate : state = "open" ∨ state = "closed" ∨ state = "all")
    (hcolor : color = "always" ∨ color = "never" ∨ color = "auto") :
    (limit = 30 → "--limit" ∉ git_issue_list_command
      ⟨".", none, none, none, none, none, limit, none, none, none, state⟩) ∧
    (limit ≠ 30 → List.IsInfix ["--limit", intToString limit]
      (git_issue_list_command
        ⟨".", none, none, none, none, none, limit, none, none, none, state⟩)) ∧
    (state = "open" → "--state" ∉ git_issue_list_command
      ⟨".", none, none, none, none, none, limit, none, none, none, state⟩) ∧
    (state ≠ "open" → List.IsInfix ["--state", state]
      (git_issue_list_command
        ⟨".", none, none, none, none, none, limit, none, none, none, state⟩)) ∧
    (color = "auto" →
      "--color" ∉ git_pr_diff_command ⟨none, ".", color, false, false⟩) ∧
    (color ≠ "auto" → List.IsInfix ["--color", color]
      (git_pr_diff_command ⟨none, ".", color, false, false⟩)) := by
  refine ⟨?_, ?_, ?_, ?_, ?_, ?_⟩
  · intro h
    subst h
    rw [issue_list_cmd_eval]
    rcases hstate with rfl | rfl | rfl <;> decide
  · intro h
    rw [issue_list_cmd_eval, if_pos (bne_iff_ne.mpr h)]
    exact ⟨["gh", "issue", "list"],
      (if state != "open" then ["--state", state] else []), by simp⟩
  · intro h
    subst h
    rw [issue_list_cmd_eval]
    simp only [bne_self_eq_false, if_neg Bool.false_ne_true, List.append_nil]
    rcases eq_or_ne limit 30 with rfl | hl
    · decide
    · rw [if_pos (bne_iff_ne.mpr hl)]
      intro hmem
      simp only [List.mem_append, List.mem_cons, List.not_mem_nil,
        or_false] at hmem
      rcases hmem with (h1 | h1 | h1) | h1 | h1
      · exact absurd h1 (by decide)
      · exact absurd h1 (by decide)
      · exact absurd h1 (by decide)
      · exact absurd h1 (by decide)
      · exact intToString_ne_dashdash limit "state" (by rw [← h1]; rfl)
  · intro h
    rw [issue_list_cmd_eval, if_pos (bne_iff_ne.mpr h)]
    exact ⟨["gh", "issue", "list"]
      ++ (if limit != 30 then ["--limit", intToString limit] else []), [],
      by simp⟩
  · intro h
    subst h
    rw [pr_diff_cmd_eval]
    decide
  · intro h
    rw [pr_diff_cmd_eval, if_pos (bne_iff_ne.mpr h)]
    exact ⟨["gh", "pr", "diff"], [], by simp⟩

/-- C7 witness: limit 31, state "closed" and color "never" each append
their flag token and value. -/
theorem c7_default_params_omit_flags_witness :
    List.IsInfix ["--limit", intToString 31]
      (git_issue_list_command
        ⟨".", none, none, none, none, none, 31, none, none, none, "closed"⟩) ∧
    List.IsInfix ["--state", "closed"]
      (git_issue_list_command
        ⟨".", none, none, none, none, none, 31, none, none, none, "closed"⟩) ∧
    List.IsInfix ["--color", "never"]
      (git_pr_diff_command ⟨none, ".", "never", false, false⟩) := by
  have h := c7_default_params_omit_flags 31 "closed" "never"
    (Or.inr (Or.inl rfl)) (Or.inr (Or.inl rfl))
  exact ⟨h.2.1 (by decide), h.2.2.2.1 (by decide), h.2.2.2.2.2 (by decide)⟩

/-- C8 counterexample: an empty issue_identifier passed to git_issue_view
does not fall back to any default command; the tool returns the required
argument error envelope without building or running a command at all. -/
theorem c8_empty_identifier_counterexample :
    git_issue_view_action ⟨"", ".", false, none, none⟩ =
      ToolAction.early_return
        ⟨false, "", "issue_identifier is required (e.g., issue number or URL)",
          -1⟩ ∧
    git_issue_view_action ⟨"", ".", false, none, none⟩ ≠
      ToolAction.run ["gh", "issue", "view"] "." ∧
    git_issue_view ⟨"", ".", false, none, none⟩
        (RunOutcome.completed 0 "ok" "") =
      ⟨false, "", "issue_identifier is required (e.g., issue number or URL)",
        -1⟩ :=
  ⟨rfl, by decide, rfl⟩

/-- C8 (amended): an empty issue_identifier makes git_issue_view return the
required-argument error envelope without running any command, rather than
producing a malformed command; a nonempty identifier builds the well-formed
gh issue view command. -/
theorem c8_empty_identifier_error_envelope (identifier repo_path : String)
    (comments : Bool) (jq : Option String) (json_fields : Option (List String)) :
    (identifier = "" →
      git_issue_view_action ⟨identifier, repo_path, comments, jq, json_fields⟩ =
        ToolAction.early_return
          ⟨false, "",
            "issue_identifier is required (e.g., issue number or URL)", -1⟩) ∧
    (identifier ≠ "" →
      git_issue_view_action ⟨identifier, repo_path, comments, jq, json_fields⟩ =
        ToolAction.run
          (["gh", "issue", "view", identifier]
            ++ (if comments then ["--comments"] else [])
            ++ optFlag "--jq" jq
            ++ optJsonFlag json_fields)
          repo_path) := by
  constructor
  · intro h
    subst h
    rfl
  · intro h
    rw [git_issue_view_action, if_neg]
    simp [String.isEmpty_iff, h]

/-- C8 witness: identifier "42" builds the command gh issue view 42. -/
theorem c8_empty_identifier_error_envelope_witness :
    git_issue_view_action ⟨"42", ".", false, none, none⟩ =
      ToolAction.run
        (["gh", "issue", "view", "42"]
          ++ (if false then ["--comments"] else [])
          ++ optFlag "--jq" none
          ++ optJsonFlag none)
        "." :=
  (c8_empty_identifier_error_envelope "42" "." false none none).2 (by decide)


/-! ## Claim theorems: data generators -/

theorem colName_injective (a b : Nat) (h : colName a = colName b) : a = b := by
  have hdata := congrArg String.data h
  simp only [colName, String.data_append] at hdata
  have htail := List.append_cancel_left hdata
  exact natToString_injective a b (by
    apply String.ext
    exact htail)

theorem lookup_key_map {β : Type} (key : Nat → String) (val : Nat → β)
    (hinj : ∀ a b, key a = key b → a = b) :
    ∀ (l : List Nat) (i : Nat), i ∈ l →
      List.lookup (key i) (l.map (fun n => (key n, val n))) = some (val i) := by
  intro l
  induction l with
  | nil => intro i hi; simp at hi
  | cons x xs ih =>
    intro i hi
    by_cases hik : key i = key x
    · have hx : i = x := hinj _ _ hik
      subst hx
      simp [List.lookup]
    · have hne : (key i == key x) = false := beq_eq_false_iff_ne.mpr hik
      simp only [List.map_cons, List.lookup, hne]
      apply ih
      rcases List.mem_cons.mp hi with rfl | hmem
      · exact absurd rfl hik
      · exact hmem

/-- C9: generate_columnar_data and generate_row_data are transposes of each
other: for every i < cols and j < rows, the columnar output's column col_i
at index j and the row output's j-th row mapping at key col_i are the same
cell value. -/
theorem c9_columnar_row_transpose (rows cols i j : Nat) (hi : i < cols)
    (hj : j < rows) :
    columnarCell rows cols i j = some (cellValue i j) ∧
    rowCell rows cols i j = some (cellValue i j) := by
  constructor
  · unfold columnarCell generate_columnar_data
    rw [lookup_key_map colName
      (fun n => (List.range rows).map (fun j' => cellValue n j'))
      colName_injective (List.range cols) i (List.mem_range.mpr hi)]
    simp only [Option.bind_some, Option.some_bind]
    rw [List.getElem?_map, List.getElem?_range hj]
    rfl
  · unfold rowCell generate_row_data
    rw [List.getElem?_map, List.getElem?_range hj]
    show List.lookup (colName i)
      ((List.range cols).map (fun n => (colName n, cellValue n j))) =
      some (cellValue i j)
    exact lookup_key_map colName (fun n => cellValue n j)
      colName_injective (List.range cols) i (List.mem_range.mpr hi)

/-- C9 witness: at rows = 2, cols = 2, i = 1, j = 0 both orientations hold
the same cell. -/
theorem c9_columnar_row_transpose_witness :
    1 < 2 ∧ 0 < 2 ∧
    columnarCell 2 2 1 0 = some (cellValue 1 0) ∧
    rowCell 2 2 1 0 = some (cellValue 1 0) := by
  have h := c9_columnar_row_transpose 2 2 1 0 (by decide) (by decide)
  exact ⟨by decide, by decide, h.1, h.2⟩


/-! ## Claim theorems: language detector -/

theorem boundary_isSpace (c : Char) (h : isLineBoundary c = true) :
    pyIsSpace c = true := by
  simp only [isLineBoundary, Bool.or_eq_true, decide_eq_true_eq] at h
  simp only [pyIsSpace, Bool.or_eq_true, Bool.and_eq_true, decide_eq_true_eq]
  tauto

theorem lstrip_cons_space (c : Char) (l : List Char) (h : pyIsSpace c = true) :
    pyLstrip (c :: l) = pyLstrip l := by
  simp [pyLstrip, h]

theorem lstrip_cons_nonspace (c : Char) (l : List Char)
    (h : pyIsSpace c = false) : pyLstrip (c :: l) = c :: l := by
  simp [pyLstrip, h]

theorem strip_cons_space (c : Char) (l : List Char) (h : pyIsSpace c = true) :
    pyStrip (c :: l) = pyStrip l := by
  unfold pyStrip
  rw [lstrip_cons_space c l h]

theorem lstrip_append_nonspace (l : List Char) (c : Char)
    (h : pyIsSpace c = false) : pyLstrip (l ++ [c]) ≠ [] := by
  induction l with
  | nil => simp [pyLstrip, h]
  | cons x xs ih =>
    cases hx : pyIsSpace x with
    | true =>
      rw [List.cons_append, lstrip_cons_space x _ hx]
      exact ih
    | false =>
      rw [List.cons_append, lstrip_cons_nonspace x _ hx]
      simp

theorem strip_cons_nonspace_ne_nil (c : Char) (l : List Char)
    (h : pyIsSpace c = false) : pyStrip (c :: l) ≠ [] := by
  unfold pyStrip pyRstrip
  rw [lstrip_cons_nonspace c l h]
  intro hcontra
  rw [List.reverse_eq_nil_iff] at hcontra
  have hrev : (c :: l).reverse = l.reverse ++ [c] := by simp
  rw [hrev] at hcontra
  exact lstrip_append_nonspace l.reverse c h hcontra

theorem bang_isEmpty_of_ne_nil (l : List Char) (h : l ≠ []) :
    (!l.isEmpty) = true := by
  cases l with
  | nil => exact absurd rfl h
  | cons x xs => rfl

theorem find_skip_blank (L : List (List Char)) :
    List.find? (fun l => !(pyStrip l).isEmpty) ([] :: L) =
    List.find? (fun l => !(pyStrip l).isEmpty) L := by
  rw [List.find?_cons_of_neg _ (by decide)]

theorem splitlines_crlf (l : List Char) :
    pySplitlines ('\r' :: '\n' :: l) = [] :: pySplitlines l := by
  simp [pySplitlines]

theorem splitlines_boundary (c : Char) (l : List Char)
    (hb : isLineBoundary c = true)
    (hcr : c = '\r' → l.head? ≠ some '\n') :
    pySplitlines (c :: l) = [] :: pySplitlines l := by
  cases l with
  | nil => simp [pySplitlines, hb]
  | cons d rest =>
    by_cases hc : c = '\r'
    · subst hc
      have hd : ¬(d = '\n') := by
        intro e
        subst e
        exact hcr rfl rfl
      simp [pySplitlines, hd, hb]
    · simp [pySplitlines, hc, hb]

theorem splitlines_cons_nonboundary_nil (c : Char) (l : List Char)
    (h : isLineBoundary c = false) (hP : pySplitlines l = []) :
    pySplitlines (c :: l) = [[c]] := by
  cases l with
  | nil => simp [pySplitlines, h]
  | cons d rest =>
    have hc : ¬(c = '\r') := by
      intro e
      rw [e] at h
      exact absurd h (by decide)
    simp [pySplitlines, hc, h, hP]

theorem splitlines_cons_nonboundary_cons (c : Char) (l l0 : List Char)
    (ls : List (List Char)) (h : isLineBoundary c = false)
    (hP : pySplitlines l = l0 :: ls) :
    pySplitlines (c :: l) = (c :: l0) :: ls := by
  cases l with
  | nil => rw [pySplitlines] at hP; cases hP
  | cons d rest =>
    have hc : ¬(c = '\r') := by
      intro e
      rw [e] at h
      exact absurd h (by decide)
    simp [pySplitlines, hc, h, hP]

theorem head_strip_lstrip_eq_find (s : List Char) :
    (pySplitlines (pyLstrip s)).head?.map pyStrip =
    ((pySplitlines s).find? (fun l => !(pyStrip l).isEmpty)).map pyStrip := by
  induction s with
  | nil => rfl
  | cons c cs ih =>
    cases hsp : pyIsSpace c with
    | true =>
      rw [lstrip_cons_space c cs hsp, ih]
      cases hb : isLineBoundary c with
      | true =>
        by_cases hcr : c = '\r' ∧ cs.head? = some '\n'
        · obtain ⟨rfl, hh⟩ := hcr
          cases cs with
          | nil => simp at hh
          | cons d rest =>
            have hd : d = '\n' := by simpa using hh
            subst hd
            rw [splitlines_crlf,
              splitlines_boundary '\n' rest (by decide)
                (fun e => absurd e (by decide))]
        · rw [splitlines_boundary c cs hb (fun e hh => hcr ⟨e, hh⟩),
            find_skip_blank]
      | false =>
        cases hP : pySplitlines cs with
        | nil =>
          rw [splitlines_cons_nonboundary_nil c cs hb hP, List.find?_cons,
            strip_cons_space c [] hsp]
          rfl
        | cons l0 ls =>
          rw [splitlines_cons_nonboundary_cons c cs l0 ls hb hP,
            List.find?_cons, List.find?_cons, strip_cons_space c l0 hsp]
          cases hpred : (!(pyStrip l0).isEmpty) with
          | true => simp [strip_cons_space c l0 hsp]
          | false => rfl
    | false =>
      rw [lstrip_cons_nonspace c cs hsp]
      have hb : isLineBoundary c = false := by
        cases hbb : isLineBoundary c with
        | false => rfl
        | true => exact absurd (boundary_isSpace c hbb) (by simp [hsp])
      cases hP : pySplitlines cs with
      | nil =>
        rw [splitlines_cons_nonboundary_nil c cs hb hP, List.find?_cons,
          bang_isEmpty_of_ne_nil _ (strip_cons_nonspace_ne_nil c [] hsp)]
        rfl
      | cons l0 ls =>
        rw [splitlines_cons_nonboundary_cons c cs l0 ls hb hP, List.find?_cons,
          bang_isEmpty_of_ne_nil _ (strip_cons_nonspace_ne_nil c l0 hsp)]
        rfl

theorem detect_eq_detectDialectSpec (q : String) :
    _detect_query_language q = detectDialectSpec q := by
  have hA := head_strip_lstrip_eq_find q.data
  simp only [_detect_query_language, detectDialectSpec, firstNonBlankLine]
  cases hH : (pySplitlines (pyLstrip q.data)).head? with
  | none =>
    cases hF : (pySplitlines q.data).find? (fun l => !(pyStrip l).isEmpty) with
    | none => simp
    | some l1 => rw [hH, hF] at hA; simp at hA
  | some l0 =>
    cases hF : (pySplitlines q.data).find? (fun l => !(pyStrip l).isEmpty) with
    | none => rw [hH, hF] at hA; simp at hA
    | some l1 =>
      rw [hH, hF] at hA
      simp only [Option.map_some', Option.some.injEq] at hA
      simp [hA]

/-- C6: the detector classifies a query as "sql" exactly when the first
non-blank line of the text, trimmed, equals the two-character marker "--",
and as "kql" otherwise; "--\nSELECT 1" yields "sql", "SELECT 1" yields
"kql", and the empty string yields "kql". -/
theorem c6_detector_marker_line (query : String) :
    _detect_query_language query = detectDialectSpec query ∧
    (_detect_query_language query = "sql" ↔
      ∃ l, firstNonBlankLine query = some l ∧ pyStrip l = ['-', '-']) ∧
    _detect_query_language "--\nSELECT 1" = "sql" ∧
    _detect_query_language "SELECT 1" = "kql" ∧
    _detect_query_language "" = "kql" := by
  refine ⟨detect_eq_detectDialectSpec query, ?_, by decide, by decide, by decide⟩
  rw [detect_eq_detectDialectSpec query]
  unfold detectDialectSpec
  cases hF : firstNonBlankLine query with
  | none =>
    constructor
    · intro h; exact absurd h (by decide)
    · rintro ⟨l, hl, -⟩; cases hl
  | some l1 =>
    show (if pyStrip l1 = ['-', '-'] then "sql" else "kql") = "sql" ↔
      ∃ l, some l1 = some l ∧ pyStrip l = ['-', '-']
    by_cases hcond : pyStrip l1 = ['-', '-']
    · rw [if_pos hcond]
      exact ⟨fun _ => ⟨l1, rfl, hcond⟩, fun _ => rfl⟩
    · rw [if_neg hcond]
      constructor
      · intro h; exact absurd h (by decide)
      · rintro ⟨l, hl, hc⟩
        rw [Option.some.injEq] at hl
        subst hl
        exact absurd hc hcond
